import Mathlib

/-!
Verification of the chainhooks client library (Go) against its
natural-language specification.  The definitions below are a shallow
embedding of the repository's source files (`client.go`, `constants.go`
and the unnamed type-declaration file): pure Go functions become Lean
functions, Go structs become Lean structures, `nil`-able pointers become
`Option`, Go error returns become `Except`/explicit error values.
-/

set_option autoImplicit false

/-! ## JSON values

Model of the values produced by Go's `encoding/json` decoder
(`map[string]interface{}` entries).  Numbers are restricted to the
non-negative integers used by this API (`uint64` counters). -/

/-- A decoded JSON value, as produced by `encoding/json`. -/
inductive Json where
  | null
  | bool (b : Bool)
  | num (n : Nat)
  | str (s : String)
  | arr (elems : List Json)
  | obj (fields : List (String × Json))

/-- Lookup of a key in a decoded JSON object (`errResp["message"]` in Go).
The model assumes each key occurs at most once, as in every JSON document
this client produces or the claims mention. -/
def jlookup (k : String) : List (String × Json) → Option Json
  | [] => none
  | (k', v) :: rest => if k = k' then some v else jlookup k rest

/-! ## Common domain types (unnamed type-declaration source file) -/

/-- `type Network string` with constants "mainnet" / "testnet". -/
abbrev Network := String

def NetworkMainnet : Network := "mainnet"

def NetworkTestnet : Network := "testnet"

/-- `type Chain string` with the single constant "stacks". -/
abbrev Chain := String

def ChainStacks : Chain := "stacks"

/-- `type UUID string`. -/
abbrev UUID := String

/-- `type ChainhookStatus string`. -/
abbrev ChainhookStatus := String

def ChainhookStatusNew : ChainhookStatus := "new"

def ChainhookStatusStreaming : ChainhookStatus := "streaming"

def ChainhookStatusExpired : ChainhookStatus := "expired"

def ChainhookStatusInterrupted : ChainhookStatus := "interrupted"

/-- `Principal`: a Stacks address, with optional standard and contract forms. -/
structure Principal where
  standard : Option String
  contract : Option String
  deriving DecidableEq

/-- `type EventType string`. -/
abbrev EventType := String

def EventTypeFTEvent : EventType := "ft_event"

def EventTypeFTMint : EventType := "ft_mint"

def EventTypeFTBurn : EventType := "ft_burn"

def EventTypeFTTransfer : EventType := "ft_transfer"

def EventTypeNFTEvent : EventType := "nft_event"

def EventTypeNFTMint : EventType := "nft_mint"

def EventTypeNFTBurn : EventType := "nft_burn"

def EventTypeNFTTransfer : EventType := "nft_transfer"

def EventTypeSTXEvent : EventType := "stx_event"

def EventTypeSTXMint : EventType := "stx_mint"

def EventTypeSTXBurn : EventType := "stx_burn"

def EventTypeSTXTransfer : EventType := "stx_transfer"

def EventTypeContractDeploy : EventType := "contract_deploy"

def EventTypeContractCall : EventType := "contract_call"

def EventTypeContractLog : EventType := "contract_log"

def EventTypeBalanceChange : EventType := "balance_change"

def EventTypeCoinbase : EventType := "coinbase"

def EventTypeTenureChange : EventType := "tenure_change"

/-! ## The eighteen event-filter struct types -/

structure FTEventFilter where
  type : EventType
  asset : String
  action : String
  sender : Option Principal
  receiver : Option Principal
  amount : Option String
  deriving DecidableEq

structure FTMintFilter where
  type : EventType
  asset : String
  recipient : Option Principal
  amount : Option String
  deriving DecidableEq

structure FTBurnFilter where
  type : EventType
  asset : String
  sender : Option Principal
  amount : Option String
  deriving DecidableEq

structure FTTransferFilter where
  type : EventType
  asset : String
  sender : Option Principal
  recipient : Option Principal
  amount : Option String
  deriving DecidableEq

structure NFTEventFilter where
  type : EventType
  asset : String
  action : String
  sender : Option Principal
  receiver : Option Principal
  deriving DecidableEq

structure NFTMintFilter where
  type : EventType
  asset : String
  recipient : Option Principal
  deriving DecidableEq

structure NFTBurnFilter where
  type : EventType
  asset : String
  sender : Option Principal
  deriving DecidableEq

structure NFTTransferFilter where
  type : EventType
  asset : String
  sender : Option Principal
  recipient : Option Principal
  deriving DecidableEq

structure STXEventFilter where
  type : EventType
  action : String
  sender : Option Principal
  receiver : Option Principal
  amount : Option String
  deriving DecidableEq

structure STXMintFilter where
  type : EventType
  recipient : Option Principal
  amount : Option String
  deriving DecidableEq

structure STXBurnFilter where
  type : EventType
  sender : Option Principal
  amount : Option String
  deriving DecidableEq

structure STXTransferFilter where
  type : EventType
  sender : Option Principal
  recipient : Option Principal
  amount : Option String
  deriving DecidableEq

structure ContractDeployFilter where
  type : EventType
  deployerPrincipal : Option Principal
  deriving DecidableEq

structure ContractCallFilter where
  type : EventType
  contractIdentifier : Option String
  method : Option String
  sender : Option Principal
  deriving DecidableEq

structure ContractLogFilter where
  type : EventType
  contractIdentifier : Option String
  deriving DecidableEq

structure BalanceChangeFilter where
  type : EventType
  principal : Option Principal
  deriving DecidableEq

structure CoinbaseFilter where
  type : EventType
  recipient : Option Principal
  deriving DecidableEq

structure TenureChangeFilter where
  type : EventType
  deriving DecidableEq

/-- The `EventFilter` interface: the closed union of the eighteen filter
struct types that implement `eventFilterMarker()` in the source. -/
inductive EventFilter where
  | ftEvent (f : FTEventFilter)
  | ftMint (f : FTMintFilter)
  | ftBurn (f : FTBurnFilter)
  | ftTransfer (f : FTTransferFilter)
  | nftEvent (f : NFTEventFilter)
  | nftMint (f : NFTMintFilter)
  | nftBurn (f : NFTBurnFilter)
  | nftTransfer (f : NFTTransferFilter)
  | stxEvent (f : STXEventFilter)
  | stxMint (f : STXMintFilter)
  | stxBurn (f : STXBurnFilter)
  | stxTransfer (f : STXTransferFilter)
  | contractDeploy (f : ContractDeployFilter)
  | contractCall (f : ContractCallFilter)
  | contractLog (f : ContractLogFilter)
  | balanceChange (f : BalanceChangeFilter)
  | coinbase (f : CoinbaseFilter)
  | tenureChange (f : TenureChangeFilter)
  deriving DecidableEq

/-- The discriminant tag of a filter: the value of its `Type` field
(serialized under the JSON key "type"). -/
def EventFilter.typeTag : EventFilter → EventType
  | .ftEvent f => f.type
  | .ftMint f => f.type
  | .ftBurn f => f.type
  | .ftTransfer f => f.type
  | .nftEvent f => f.type
  | .nftMint f => f.type
  | .nftBurn f => f.type
  | .nftTransfer f => f.type
  | .stxEvent f => f.type
  | .stxMint f => f.type
  | .stxBurn f => f.type
  | .stxTransfer f => f.type
  | .contractDeploy f => f.type
  | .contractCall f => f.type
  | .contractLog f => f.type
  | .balanceChange f => f.type
  | .coinbase f => f.type
  | .tenureChange f => f.type

/-! ## Definition-level types -/

/-- `ChainhookOptions`: ten independently optional behavior toggles.
A `none` field is omitted from the serialized JSON (`omitempty`). -/
structure ChainhookOptions where
  enableOnRegistration : Option Bool
  expireAfterEvaluations : Option Nat
  expireAfterOccurrences : Option Nat
  decodeClarityValues : Option Bool
  includeContractABI : Option Bool
  includeContractSourceCode : Option Bool
  includePostConditions : Option Bool
  includeRawTransactions : Option Bool
  includeBlockSignatures : Option Bool
  includeBlockMetadata : Option Bool
  deriving DecidableEq

/-- The Go zero value `ChainhookOptions{}`: every field nil. -/
def emptyChainhookOptions : ChainhookOptions :=
  { enableOnRegistration := none
    expireAfterEvaluations := none
    expireAfterOccurrences := none
    decodeClarityValues := none
    includeContractABI := none
    includeContractSourceCode := none
    includePostConditions := none
    includeRawTransactions := none
    includeBlockSignatures := none
    includeBlockMetadata := none }

/-- `ChainhookFilters`: the event list of a definition. -/
structure ChainhookFilters where
  events : List EventFilter
  deriving DecidableEq

/-- `ChainhookAction`: action type (always "http_post") and callback URL. -/
structure ChainhookAction where
  type : String
  url : String
  deriving DecidableEq

/-- `ChainhookDefinition`: the unit of registration. -/
structure ChainhookDefinition where
  name : String
  version : String
  chain : Chain
  network : Network
  filters : ChainhookFilters
  options : Option ChainhookOptions
  action : ChainhookAction
  deriving DecidableEq

/-- `PaginationOptions`: offset/limit pair (`uint64` fields). -/
structure PaginationOptions where
  offset : Nat
  limit : Nat
  deriving DecidableEq

/-- `BulkEnableChainhooksRequest`: one enabled target plus selectors. -/
structure BulkEnableChainhooksRequest where
  enabled : Bool
  uuids : List UUID
  webhookURL : Option String
  statuses : List ChainhookStatus
  deriving DecidableEq

/-- `EvaluateChainhookRequest`. -/
structure EvaluateChainhookRequest where
  blockHeight : Nat
  deriving DecidableEq

/-! ## Error taxonomy (`client.go` error types and `constants.go` helpers) -/

/-- `ValidationError`: offending field name plus reason, produced
client-side before any network access. -/
structure ValidationError where
  field : String
  reason : String
  deriving DecidableEq

/-- `HttpError`: structured HTTP failure captured from a `>= 400` response. -/
structure HttpError where
  statusCode : Nat
  url : String
  method : String
  headers : List (String × String)
  body : String
  rawBody : String
  deriving DecidableEq

/-- The (non-nil) Go `error` values this library can return: an
`*HttpError`, a `*ValidationError`, a `*ConfigError`, or an error wrapped
by `fmt.Errorf` (marshal/decode/transport failures). -/
inductive ClientError where
  | http (e : HttpError)
  | validation (e : ValidationError)
  | config (msg : String)
  | wrapped (msg : String)
  deriving DecidableEq

/-- `IsHttpError`: type assertion `err.(*HttpError)` succeeds. -/
def IsHttpError : ClientError → Bool
  | .http _ => true
  | _ => false

/-- `AsHttpError`: the `*HttpError` behind an error, when it is one. -/
def AsHttpError : ClientError → Option HttpError
  | .http e => some e
  | _ => none

/-- `GetHttpStatusCode`: status code of an `HttpError` (`(int, bool)` in Go). -/
def GetHttpStatusCode (err : ClientError) : Option Nat :=
  (AsHttpError err).map (fun e => e.statusCode)

/-- `IsNotFound`: `ok && statusCode == 404`. -/
def IsNotFound (err : ClientError) : Bool :=
  match GetHttpStatusCode err with
  | some code => code == 404
  | none => false

/-- `IsUnauthorized`: `ok && statusCode == 401`. -/
def IsUnauthorized (err : ClientError) : Bool :=
  match GetHttpStatusCode err with
  | some code => code == 401
  | none => false

/-- `IsServerError`: `ok && statusCode >= 500`. -/
def IsServerError (err : ClientError) : Bool :=
  match GetHttpStatusCode err with
  | some code => 500 ≤ code
  | none => false

/-! ## HTTP response handling (`client.go`) -/

/-- An HTTP response body: its raw text together with the result of
`json.Unmarshal` into `map[string]interface{}` (`none` when the body is
not a JSON object).  The decoder itself is the Go standard library; its
outcome is supplied as data, constrained where a claim needs it. -/
structure HttpBody where
  raw : String
  parsed : Option (List (String × Json))

/-- Lookup of a string-valued key in a decoded JSON object:
`errResp[k].(string)` in Go (`none` when absent or not a string). -/
def lookupString (fields : List (String × Json)) (k : String) : Option String :=
  match jlookup k fields with
  | some (Json.str s) => some s
  | _ => none

/-- `newHttpError` (client.go): read the body; if non-empty, try the JSON
object's "message" then "error" string fields, else fall back to the raw
body text; capture status, method, URL and headers. -/
def newHttpError (statusCode : Nat) (method url : String)
    (headers : List (String × String)) (respBody : HttpBody) : HttpError :=
  let errMsg :=
    if 0 < respBody.raw.length then
      match respBody.parsed with
      | some fields =>
        match lookupString fields "message" with
        | some m => m
        | none =>
          match lookupString fields "error" with
          | some m => m
          | none => respBody.raw
      | none => respBody.raw
    else ""
  { statusCode := statusCode, url := url, method := method,
    headers := headers, body := errMsg, rawBody := respBody.raw }

/-- Modelled from the spec: "attempt JSON-object decode looking for a
`message` then `error` string field for a human message, falling back to
the raw body text if neither key decodes". -/
def specChosenMessage (respBody : HttpBody) : String :=
  match respBody.parsed with
  | some fields =>
    match lookupString fields "message" with
    | some m => m
    | none =>
      match lookupString fields "error" with
      | some m => m
      | none => respBody.raw
  | none => respBody.raw

/-- The response-classification tail of `Client.request` (client.go lines
148-171): `>= 400` builds an `HttpError`; `204` returns success without
touching the decode destination; otherwise the body is decoded into the
destination when both a destination and a non-empty body exist.  The
destination pointer is modelled as `Option α` (its current value when
non-nil) and the returned value is its state after the call; `decode`
stands for `json.Unmarshal` into `α`. -/
def handleResponse {α : Type} (status : Nat) (method url : String)
    (headers : List (String × String)) (respBody : HttpBody)
    (result : Option α) (decode : String → Option α) :
    Except ClientError (Option α) :=
  if 400 ≤ status then
    .error (.http (newHttpError status method url headers respBody))
  else if status = 204 then
    .ok result
  else
    match result with
    | some _ =>
      if 0 < respBody.raw.length then
        match decode respBody.raw with
        | some v => .ok (some v)
        | none => .error (.wrapped "failed to unmarshal response body")
      else .ok result
    | none => .ok result

/-! ## Client construction (`client.go`) -/

/-- `ChainhooksBaseURLs` map (Go map lookup: zero value for other keys). -/
def ChainhooksBaseURLs (n : Network) : String :=
  if n = NetworkMainnet then "https://api.mainnet.hiro.so"
  else if n = NetworkTestnet then "https://api.testnet.hiro.so"
  else ""

/-- The part of `ClientConfig` that determines the stored base URL.
(API key, JWT, timeout, user agent and the HTTP client never affect it.) -/
structure ClientConfig where
  baseURL : String
  deriving DecidableEq

/-- The part of `Client` state the claims concern. -/
structure Client where
  baseURL : String
  deriving DecidableEq

/-- `cfg.BaseURL` after the empty-string default is applied. -/
def effectiveBaseURL (cfg : ClientConfig) : String :=
  if cfg.baseURL = "" then ChainhooksBaseURLs NetworkMainnet else cfg.baseURL

/-- Go `strings.HasSuffix(s, "/")` for the one-byte suffix "/". -/
def hasSuffixSlash (s : String) : Bool :=
  match s.data.getLast? with
  | some c => c == '/'
  | none => false

/-- Whether `s` ends with "//" (two trailing slash characters). -/
def hasSuffixDoubleSlash (s : String) : Bool :=
  match s.data.reverse with
  | c1 :: c2 :: _ => c1 == '/' && c2 == '/'
  | _ => false

/-- Go `strings.TrimSuffix(s, "/")`: drop ONE trailing "/" when present. -/
def goTrimSuffixSlash (s : String) : String :=
  if hasSuffixSlash s then String.mk s.data.dropLast else s

/-- `NewClientWithConfig`: apply the empty default, then strip the
trailing slash once, and store the result as the client's base URL. -/
def NewClientWithConfig (cfg : ClientConfig) : Client :=
  { baseURL := goTrimSuffixSlash (effectiveBaseURL cfg) }

/-- The full URL built by `Client.request`: `fmt.Sprintf("%s%s", c.baseURL, path)`. -/
def requestFullURL (c : Client) (path : String) : String :=
  c.baseURL ++ path

/-! ## Endpoints and request descriptions -/

def MethodGET : String := "GET"

def MethodPOST : String := "POST"

def MethodPATCH : String := "PATCH"

def MethodDELETE : String := "DELETE"

def EndpointChainhooks : String := "/chainhooks/me"

def EndpointBulkEnabled : String := "/chainhooks/me/enabled"

def EndpointConsumerSecret : String := "/chainhooks/me/secret"

def EndpointStatus : String := "/chainhooks"

/-- `fmt.Sprintf(EndpointChainhook, uuid)` with pattern "/chainhooks/me/%s". -/
def endpointChainhookPath (uuid : UUID) : String :=
  "/chainhooks/me/" ++ uuid

/-- `fmt.Sprintf(EndpointChainhookEnabled, uuid)`, pattern "/chainhooks/me/%s/enabled". -/
def endpointChainhookEnabledPath (uuid : UUID) : String :=
  "/chainhooks/me/" ++ uuid ++ "/enabled"

/-- `fmt.Sprintf(EndpointEvaluate, uuid)`, pattern "/chainhooks/me/%s/evaluate". -/
def endpointEvaluatePath (uuid : UUID) : String :=
  "/chainhooks/me/" ++ uuid ++ "/evaluate"

/-- The JSON-serializable request bodies the public operations send. -/
inductive RequestBody where
  | noBody
  | definitionBody (d : ChainhookDefinition)
  | enabledBody (enabled : Bool)
  | bulkBody (r : BulkEnableChainhooksRequest)
  | evaluateBody (r : EvaluateChainhookRequest)
  deriving DecidableEq

/-- The HTTP request an operation hands to `Client.request`.  An operation
that returns a `ValidationError` instead provably produced no request:
the round trip is reached only through this value. -/
structure RequestSpec where
  method : String
  path : String
  body : RequestBody
  deriving DecidableEq

/-! ## Query-string encoding (`net/url`) and the list operation

`url.Values.Encode` emits the parameters SORTED BY KEY.  `sortByKey`
models `sort.Strings` on the keys; `queryEscape` is `url.QueryEscape`,
which is the identity on the alphanumeric keys and decimal values that
occur here. -/

def queryEscape (s : String) : String := s

/-- Byte-wise lexicographic order on (ASCII) strings, as `sort.Strings`
compares Go strings. -/
def charListLt : List Char → List Char → Bool
  | [], [] => false
  | [], _ :: _ => true
  | _ :: _, [] => false
  | c :: cs, d :: ds =>
    if c.toNat < d.toNat then true
    else if d.toNat < c.toNat then false
    else charListLt cs ds

def keyLt (a b : String) : Bool := charListLt a.data b.data

def insertSortedByKey (x : String × String) :
    List (String × String) → List (String × String)
  | [] => [x]
  | y :: ys => if keyLt y.1 x.1 then y :: insertSortedByKey x ys else x :: y :: ys

def sortByKey (l : List (String × String)) : List (String × String) :=
  l.foldr insertSortedByKey []

/-- `url.Values.Encode()`: pairs sorted by key, each rendered
`key=escape(value)` and joined with "&". -/
def urlValuesEncode (params : List (String × String)) : String :=
  String.intercalate "&"
    ((sortByKey params).map (fun p => queryEscape p.1 ++ "=" ++ queryEscape p.2))

/-- `NewPaginationOptions`. -/
def NewPaginationOptions (offset limit : Nat) : PaginationOptions :=
  { offset := offset, limit := limit }

/-- `GetChainhooks`: list with optional pagination.  `%d` formatting of a
`uint64` is decimal `toString`.  No validation pre-check exists, so the
request is produced unconditionally. -/
def GetChainhooks (opts : Option PaginationOptions) : RequestSpec :=
  let path :=
    match opts with
    | none => EndpointChainhooks
    | some o =>
      EndpointChainhooks ++ "?" ++
        urlValuesEncode [("offset", toString o.offset), ("limit", toString o.limit)]
  { method := MethodGET, path := path, body := .noBody }

/-! ## Public operations with client-side pre-checks (`client.go`)

Each operation is modelled up to the point where it either fails its
client-side validation (returning the `ValidationError` and never
building a request) or hands a fully determined request to the round
trip. -/

/-- `RegisterChainhook`: definition must be non-nil. -/
def RegisterChainhook (definition : Option ChainhookDefinition) :
    Except ValidationError RequestSpec :=
  match definition with
  | none => .error { field := "definition", reason := "definition cannot be nil" }
  | some d => .ok { method := MethodPOST, path := EndpointChainhooks, body := .definitionBody d }

/-- `UpdateChainhook`: uuid non-empty, then definition non-nil. -/
def UpdateChainhook (uuid : UUID) (definition : Option ChainhookDefinition) :
    Except ValidationError RequestSpec :=
  if uuid = "" then
    .error { field := "uuid", reason := "uuid cannot be empty" }
  else
    match definition with
    | none => .error { field := "definition", reason := "definition cannot be nil" }
    | some d =>
      .ok { method := MethodPATCH, path := endpointChainhookPath uuid, body := .definitionBody d }

/-- `GetChainhook`: uuid non-empty. -/
def GetChainhook (uuid : UUID) : Except ValidationError RequestSpec :=
  if uuid = "" then
    .error { field := "uuid", reason := "uuid cannot be empty" }
  else
    .ok { method := MethodGET, path := endpointChainhookPath uuid, body := .noBody }

/-- `EnableChainhook`: uuid non-empty. -/
def EnableChainhook (uuid : UUID) (enabled : Bool) : Except ValidationError RequestSpec :=
  if uuid = "" then
    .error { field := "uuid", reason := "uuid cannot be empty" }
  else
    .ok { method := MethodPATCH, path := endpointChainhookEnabledPath uuid,
          body := .enabledBody enabled }

/-- `BulkEnableChainhooks`: request non-nil, then at least one selector. -/
def BulkEnableChainhooks (request : Option BulkEnableChainhooksRequest) :
    Except ValidationError RequestSpec :=
  match request with
  | none => .error { field := "request", reason := "request cannot be nil" }
  | some r =>
    if r.uuids.length = 0 ∧ r.webhookURL = none ∧ r.statuses.length = 0 then
      .error { field := "request",
               reason := "at least one filter (uuids, webhook_url, or statuses) must be provided" }
    else
      .ok { method := MethodPATCH, path := EndpointBulkEnabled, body := .bulkBody r }

/-- `DeleteChainhook`: uuid non-empty. -/
def DeleteChainhook (uuid : UUID) : Except ValidationError RequestSpec :=
  if uuid = "" then
    .error { field := "uuid", reason := "uuid cannot be empty" }
  else
    .ok { method := MethodDELETE, path := endpointChainhookPath uuid, body := .noBody }

/-- `EvaluateChainhook`: uuid non-empty. -/
def EvaluateChainhook (uuid : UUID) (blockHeight : Nat) : Except ValidationError RequestSpec :=
  if uuid = "" then
    .error { field := "uuid", reason := "uuid cannot be empty" }
  else
    .ok { method := MethodPOST, path := endpointEvaluatePath uuid,
          body := .evaluateBody { blockHeight := blockHeight } }

/-- `BulkEnableUUIDs` helper (constants.go). -/
def BulkEnableUUIDs (enabled : Bool) (uuids : List UUID) : BulkEnableChainhooksRequest :=
  { enabled := enabled, uuids := uuids, webhookURL := none, statuses := [] }

/-! ## Definition builder (`constants.go`) -/

def DefaultAPIVersion : String := "1"

def DefaultChain : Chain := ChainStacks

/-- `ChainhookBuilder` state: in-progress definition, accumulated filter
list, and the sticky error slot.  The slot is declared `error` in Go; the
only error type the builder surface could ever store is a validation
error, so it is modelled as `Option ValidationError`. -/
structure ChainhookBuilder where
  definition : ChainhookDefinition
  filters : List EventFilter
  err : Option ValidationError
  deriving DecidableEq

/-- `NewChainhookBuilder`: name and network from the caller, version and
chain defaulted, everything else the Go zero value. -/
def NewChainhookBuilder (name : String) (network : Network) : ChainhookBuilder :=
  { definition :=
      { name := name, version := DefaultAPIVersion, chain := DefaultChain,
        network := network, filters := { events := [] }, options := none,
        action := { type := "", url := "" } },
    filters := [], err := none }

def ChainhookBuilder.WithName (b : ChainhookBuilder) (name : String) : ChainhookBuilder :=
  if b.err.isSome then b
  else { b with definition := { b.definition with name := name } }

def ChainhookBuilder.WithNetwork (b : ChainhookBuilder) (network : Network) : ChainhookBuilder :=
  if b.err.isSome then b
  else { b with definition := { b.definition with network := network } }

def ChainhookBuilder.WithWebhookURL (b : ChainhookBuilder) (url : String) : ChainhookBuilder :=
  if b.err.isSome then b
  else { b with definition := { b.definition with action := { type := "http_post", url := url } } }

def ChainhookBuilder.AddFilter (b : ChainhookBuilder) (filter : EventFilter) : ChainhookBuilder :=
  if b.err.isSome then b
  else { b with filters := b.filters ++ [filter] }

def ChainhookBuilder.AddFTTransfer (b : ChainhookBuilder) (asset : String)
    (sender receiver : Option Principal) (amount : Option String) : ChainhookBuilder :=
  b.AddFilter (.ftTransfer
    { type := EventTypeFTTransfer, asset := asset, sender := sender,
      recipient := receiver, amount := amount })

def ChainhookBuilder.AddFTMint (b : ChainhookBuilder) (asset : String)
    (recipient : Option Principal) (amount : Option String) : ChainhookBuilder :=
  b.AddFilter (.ftMint
    { type := EventTypeFTMint, asset := asset, recipient := recipient, amount := amount })

def ChainhookBuilder.AddFTBurn (b : ChainhookBuilder) (asset : String)
    (sender : Option Principal) (amount : Option String) : ChainhookBuilder :=
  b.AddFilter (.ftBurn
    { type := EventTypeFTBurn, asset := asset, sender := sender, amount := amount })

def ChainhookBuilder.AddNFTTransfer (b : ChainhookBuilder) (asset : String)
    (sender receiver : Option Principal) : ChainhookBuilder :=
  b.AddFilter (.nftTransfer
    { type := EventTypeNFTTransfer, asset := asset, sender := sender, recipient := receiver })

def ChainhookBuilder.AddNFTMint (b : ChainhookBuilder) (asset : String)
    (recipient : Option Principal) : ChainhookBuilder :=
  b.AddFilter (.nftMint
    { type := EventTypeNFTMint, asset := asset, recipient := recipient })

def ChainhookBuilder.AddNFTBurn (b : ChainhookBuilder) (asset : String)
    (sender : Option Principal) : ChainhookBuilder :=
  b.AddFilter (.nftBurn
    { type := EventTypeNFTBurn, asset := asset, sender := sender })

def ChainhookBuilder.AddSTXTransfer (b : ChainhookBuilder)
    (sender receiver : Option Principal) (amount : Option String) : ChainhookBuilder :=
  b.AddFilter (.stxTransfer
    { type := EventTypeSTXTransfer, sender := sender, recipient := receiver, amount := amount })

def ChainhookBuilder.AddSTXMint (b : ChainhookBuilder)
    (recipient : Option Principal) (amount : Option String) : ChainhookBuilder :=
  b.AddFilter (.stxMint
    { type := EventTypeSTXMint, recipient := recipient, amount := amount })

def ChainhookBuilder.AddSTXBurn (b : ChainhookBuilder)
    (sender : Option Principal) (amount : Option String) : ChainhookBuilder :=
  b.AddFilter (.stxBurn
    { type := EventTypeSTXBurn, sender := sender, amount := amount })

def ChainhookBuilder.AddContractDeploy (b : ChainhookBuilder)
    (deployerPrincipal : Option Principal) : ChainhookBuilder :=
  b.AddFilter (.contractDeploy
    { type := EventTypeContractDeploy, deployerPrincipal := deployerPrincipal })

def ChainhookBuilder.AddContractCall (b : ChainhookBuilder)
    (contractID : Option String) (method : Option String)
    (sender : Option Principal) : ChainhookBuilder :=
  b.AddFilter (.contractCall
    { type := EventTypeContractCall, contractIdentifier := contractID,
      method := method, sender := sender })

def ChainhookBuilder.AddContractLog (b : ChainhookBuilder)
    (contractID : Option String) : ChainhookBuilder :=
  b.AddFilter (.contractLog
    { type := EventTypeContractLog, contractIdentifier := contractID })

def ChainhookBuilder.AddBalanceChange (b : ChainhookBuilder)
    (principal : Option Principal) : ChainhookBuilder :=
  b.AddFilter (.balanceChange
    { type := EventTypeBalanceChange, principal := principal })

def ChainhookBuilder.AddCoinbase (b : ChainhookBuilder)
    (recipient : Option Principal) : ChainhookBuilder :=
  b.AddFilter (.coinbase
    { type := EventTypeCoinbase, recipient := recipient })

def ChainhookBuilder.AddTenureChange (b : ChainhookBuilder) : ChainhookBuilder :=
  b.AddFilter (.tenureChange { type := EventTypeTenureChange })

def ChainhookBuilder.WithOptions (b : ChainhookBuilder)
    (opts : Option ChainhookOptions) : ChainhookBuilder :=
  if b.err.isSome then b
  else { b with definition := { b.definition with options := opts } }

/-- The lazy-allocation step shared by the ten option setters:
`if b.definition.Options == nil { b.definition.Options = &ChainhookOptions{} }`. -/
def ChainhookBuilder.currentOptions (b : ChainhookBuilder) : ChainhookOptions :=
  b.definition.options.getD emptyChainhookOptions

def ChainhookBuilder.WithEnableOnRegistration (b : ChainhookBuilder) (enable : Bool) :
    ChainhookBuilder :=
  if b.err.isSome then b
  else { b with definition := { b.definition with
    options := some { b.currentOptions with enableOnRegistration := some enable } } }

def ChainhookBuilder.WithExpireAfterEvaluations (b : ChainhookBuilder) (count : Nat) :
    ChainhookBuilder :=
  if b.err.isSome then b
  else { b with definition := { b.definition with
    options := some { b.currentOptions with expireAfterEvaluations := some count } } }

def ChainhookBuilder.WithExpireAfterOccurrences (b : ChainhookBuilder) (count : Nat) :
    ChainhookBuilder :=
  if b.err.isSome then b
  else { b with definition := { b.definition with
    options := some { b.currentOptions with expireAfterOccurrences := some count } } }

def ChainhookBuilder.WithDecodeClarityValues (b : ChainhookBuilder) (decode : Bool) :
    ChainhookBuilder :=
  if b.err.isSome then b
  else { b with definition := { b.definition with
    options := some { b.currentOptions with decodeClarityValues := some decode } } }

def ChainhookBuilder.WithIncludeContractABI (b : ChainhookBuilder) (incl : Bool) :
    ChainhookBuilder :=
  if b.err.isSome then b
  else { b with definition := { b.definition with
    options := some { b.currentOptions with includeContractABI := some incl } } }

def ChainhookBuilder.WithIncludeContractSourceCode (b : ChainhookBuilder) (incl : Bool) :
    ChainhookBuilder :=
  if b.err.isSome then b
  else { b with definition := { b.definition with
    options := some { b.currentOptions with includeContractSourceCode := some incl } } }

def ChainhookBuilder.WithIncludePostConditions (b : ChainhookBuilder) (incl : Bool) :
    ChainhookBuilder :=
  if b.err.isSome then b
  else { b with definition := { b.definition with
    options := some { b.currentOptions with includePostConditions := some incl } } }

def ChainhookBuilder.WithIncludeRawTransactions (b : ChainhookBuilder) (incl : Bool) :
    ChainhookBuilder :=
  if b.err.isSome then b
  else { b with definition := { b.definition with
    options := some { b.currentOptions with includeRawTransactions := some incl } } }

def ChainhookBuilder.WithIncludeBlockSignatures (b : ChainhookBuilder) (incl : Bool) :
    ChainhookBuilder :=
  if b.err.isSome then b
  else { b with definition := { b.definition with
    options := some { b.currentOptions with includeBlockSignatures := some incl } } }

def ChainhookBuilder.WithIncludeBlockMetadata (b : ChainhookBuilder) (incl : Bool) :
    ChainhookBuilder :=
  if b.err.isSome then b
  else { b with definition := { b.definition with
    options := some { b.currentOptions with includeBlockMetadata := some incl } } }

/-- `ChainhookBuilder.Build`: return the stored error if any, otherwise
check name, then action URL, then the filter list, in that order; on
success install the filters into the definition and return it. -/
def ChainhookBuilder.Build (b : ChainhookBuilder) :
    Except ValidationError ChainhookDefinition :=
  match b.err with
  | some e => .error e
  | none =>
    if b.definition.name = "" then
      .error { field := "name", reason := "name is required" }
    else if b.definition.action.url = "" then
      .error { field := "action.url", reason := "webhook URL is required" }
    else if b.filters.length = 0 then
      .error { field := "filters", reason := "at least one filter is required" }
    else
      .ok { b.definition with filters := { events := b.filters } }

/-! ## The complete fluent surface as data

One constructor per fluent (chain-returning) method of `ChainhookBuilder`,
with its arguments, so that "every sequence of fluent calls" can be
quantified over. -/

inductive BuilderOp where
  | withName (name : String)
  | withNetwork (network : Network)
  | withWebhookURL (url : String)
  | addFilter (filter : EventFilter)
  | addFTTransfer (asset : String) (sender receiver : Option Principal) (amount : Option String)
  | addFTMint (asset : String) (recipient : Option Principal) (amount : Option String)
  | addFTBurn (asset : String) (sender : Option Principal) (amount : Option String)
  | addNFTTransfer (asset : String) (sender receiver : Option Principal)
  | addNFTMint (asset : String) (recipient : Option Principal)
  | addNFTBurn (asset : String) (sender : Option Principal)
  | addSTXTransfer (sender receiver : Option Principal) (amount : Option String)
  | addSTXMint (recipient : Option Principal) (amount : Option String)
  | addSTXBurn (sender : Option Principal) (amount : Option String)
  | addContractDeploy (deployerPrincipal : Option Principal)
  | addContractCall (contractID : Option String) (method : Option String) (sender : Option Principal)
  | addContractLog (contractID : Option String)
  | addBalanceChange (principal : Option Principal)
  | addCoinbase (recipient : Option Principal)
  | addTenureChange
  | withOptions (opts : Option ChainhookOptions)
  | withEnableOnRegistration (enable : Bool)
  | withExpireAfterEvaluations (count : Nat)
  | withExpireAfterOccurrences (count : Nat)
  | withDecodeClarityValues (decode : Bool)
  | withIncludeContractABI (incl : Bool)
  | withIncludeContractSourceCode (incl : Bool)
  | withIncludePostConditions (incl : Bool)
  | withIncludeRawTransactions (incl : Bool)
  | withIncludeBlockSignatures (incl : Bool)
  | withIncludeBlockMetadata (incl : Bool)

/-- Apply one fluent call to a builder. -/
def applyOp (op : BuilderOp) (b : ChainhookBuilder) : ChainhookBuilder :=
  match op with
  | .withName n => b.WithName n
  | .withNetwork n => b.WithNetwork n
  | .withWebhookURL u => b.WithWebhookURL u
  | .addFilter f => b.AddFilter f
  | .addFTTransfer a s r am => b.AddFTTransfer a s r am
  | .addFTMint a r am => b.AddFTMint a r am
  | .addFTBurn a s am => b.AddFTBurn a s am
  | .addNFTTransfer a s r => b.AddNFTTransfer a s r
  | .addNFTMint a r => b.AddNFTMint a r
  | .addNFTBurn a s => b.AddNFTBurn a s
  | .addSTXTransfer s r am => b.AddSTXTransfer s r am
  | .addSTXMint r am => b.AddSTXMint r am
  | .addSTXBurn s am => b.AddSTXBurn s am
  | .addContractDeploy p => b.AddContractDeploy p
  | .addContractCall c m s => b.AddContractCall c m s
  | .addContractLog c => b.AddContractLog c
  | .addBalanceChange p => b.AddBalanceChange p
  | .addCoinbase r => b.AddCoinbase r
  | .addTenureChange => b.AddTenureChange
  | .withOptions o => b.WithOptions o
  | .withEnableOnRegistration v => b.WithEnableOnRegistration v
  | .withExpireAfterEvaluations v => b.WithExpireAfterEvaluations v
  | .withExpireAfterOccurrences v => b.WithExpireAfterOccurrences v
  | .withDecodeClarityValues v => b.WithDecodeClarityValues v
  | .withIncludeContractABI v => b.WithIncludeContractABI v
  | .withIncludeContractSourceCode v => b.WithIncludeContractSourceCode v
  | .withIncludePostConditions v => b.WithIncludePostConditions v
  | .withIncludeRawTransactions v => b.WithIncludeRawTransactions v
  | .withIncludeBlockSignatures v => b.WithIncludeBlockSignatures v
  | .withIncludeBlockMetadata v => b.WithIncludeBlockMetadata v

/-- Apply a whole sequence of fluent calls, left to right. -/
def applyOps (ops : List BuilderOp) (b : ChainhookBuilder) : ChainhookBuilder :=
  ops.foldl (fun acc op => applyOp op acc) b

/-! ## Options builder (`constants.go`) -/

/-- `ChainhookOptionsBuilder`: a bag of options under construction. -/
structure ChainhookOptionsBuilder where
  opts : ChainhookOptions
  deriving DecidableEq

/-- `NewChainhookOptionsBuilder`: fresh empty bag. -/
def NewChainhookOptionsBuilder : ChainhookOptionsBuilder :=
  { opts := emptyChainhookOptions }

def ChainhookOptionsBuilder.EnableOnRegistration (b : ChainhookOptionsBuilder)
    (enable : Bool) : ChainhookOptionsBuilder :=
  { b with opts := { b.opts with enableOnRegistration := some enable } }

def ChainhookOptionsBuilder.ExpireAfterEvaluations (b : ChainhookOptionsBuilder)
    (count : Nat) : ChainhookOptionsBuilder :=
  { b with opts := { b.opts with expireAfterEvaluations := some count } }

def ChainhookOptionsBuilder.ExpireAfterOccurrences (b : ChainhookOptionsBuilder)
    (count : Nat) : ChainhookOptionsBuilder :=
  { b with opts := { b.opts with expireAfterOccurrences := some count } }

def ChainhookOptionsBuilder.DecodeClarityValues (b : ChainhookOptionsBuilder)
    (decode : Bool) : ChainhookOptionsBuilder :=
  { b with opts := { b.opts with decodeClarityValues := some decode } }

def ChainhookOptionsBuilder.IncludeContractABI (b : ChainhookOptionsBuilder)
    (incl : Bool) : ChainhookOptionsBuilder :=
  { b with opts := { b.opts with includeContractABI := some incl } }

def ChainhookOptionsBuilder.IncludeContractSourceCode (b : ChainhookOptionsBuilder)
    (incl : Bool) : ChainhookOptionsBuilder :=
  { b with opts := { b.opts with includeContractSourceCode := some incl } }

def ChainhookOptionsBuilder.IncludePostConditions (b : ChainhookOptionsBuilder)
    (incl : Bool) : ChainhookOptionsBuilder :=
  { b with opts := { b.opts with includePostConditions := some incl } }

def ChainhookOptionsBuilder.IncludeRawTransactions (b : ChainhookOptionsBuilder)
    (incl : Bool) : ChainhookOptionsBuilder :=
  { b with opts := { b.opts with includeRawTransactions := some incl } }

def ChainhookOptionsBuilder.IncludeBlockSignatures (b : ChainhookOptionsBuilder)
    (incl : Bool) : ChainhookOptionsBuilder :=
  { b with opts := { b.opts with includeBlockSignatures := some incl } }

def ChainhookOptionsBuilder.IncludeBlockMetadata (b : ChainhookOptionsBuilder)
    (incl : Bool) : ChainhookOptionsBuilder :=
  { b with opts := { b.opts with includeBlockMetadata := some incl } }

/-- `ChainhookOptionsBuilder.Build`: returns the bag, unconditionally —
the Go function has no error result, so failure is impossible by type. -/
def ChainhookOptionsBuilder.Build (b : ChainhookOptionsBuilder) : ChainhookOptions :=
  b.opts

/-! ## JSON serialization of `ChainhookOptions`

`encoding/json` with `omitempty` on every (pointer) field: a nil field is
omitted; a set field is emitted under its JSON key, in struct order.
Deserialization into the pointer fields reads each key back, absent keys
leaving the field nil. -/

/-- One `omitempty` field: nothing when unset, one key/value pair when set. -/
def optField (k : String) (v : Option Json) : List (String × Json) :=
  match v with
  | none => []
  | some j => [(k, j)]

/-- `json.Marshal` of a `ChainhookOptions` value, as its object fields. -/
def serializeOptions (o : ChainhookOptions) : List (String × Json) :=
  optField "enable_on_registration" (o.enableOnRegistration.map Json.bool) ++
  optField "expire_after_evaluations" (o.expireAfterEvaluations.map Json.num) ++
  optField "expire_after_occurrences" (o.expireAfterOccurrences.map Json.num) ++
  optField "decode_clarity_values" (o.decodeClarityValues.map Json.bool) ++
  optField "include_contract_abi" (o.includeContractABI.map Json.bool) ++
  optField "include_contract_source_code" (o.includeContractSourceCode.map Json.bool) ++
  optField "include_post_conditions" (o.includePostConditions.map Json.bool) ++
  optField "include_raw_transactions" (o.includeRawTransactions.map Json.bool) ++
  optField "include_block_signatures" (o.includeBlockSignatures.map Json.bool) ++
  optField "include_block_metadata" (o.includeBlockMetadata.map Json.bool)

/-- Reading a `*bool` field back from a decoded object. -/
def getBoolField (fields : List (String × Json)) (k : String) : Option Bool :=
  match jlookup k fields with
  | some (Json.bool b) => some b
  | _ => none

/-- Reading a `*uint64` field back from a decoded object. -/
def getNumField (fields : List (String × Json)) (k : String) : Option Nat :=
  match jlookup k fields with
  | some (Json.num n) => some n
  | _ => none

/-- `json.Unmarshal` of an object into `ChainhookOptions`. -/
def deserializeOptions (fields : List (String × Json)) : ChainhookOptions :=
  { enableOnRegistration := getBoolField fields "enable_on_registration"
    expireAfterEvaluations := getNumField fields "expire_after_evaluations"
    expireAfterOccurrences := getNumField fields "expire_after_occurrences"
    decodeClarityValues := getBoolField fields "decode_clarity_values"
    includeContractABI := getBoolField fields "include_contract_abi"
    includeContractSourceCode := getBoolField fields "include_contract_source_code"
    includePostConditions := getBoolField fields "include_post_conditions"
    includeRawTransactions := getBoolField fields "include_raw_transactions"
    includeBlockSignatures := getBoolField fields "include_block_signatures"
    includeBlockMetadata := getBoolField fields "include_block_metadata" }

/-! ## The builder's addX surface, enumerated

`builderAddMethods` lists every method of `ChainhookBuilder` whose name
begins with `Add` and that adds one specific filter variant — that is,
every `addX` convenience method in `constants.go` (the generic
`AddFilter` is the primitive they wrap, not a variant method).  Arguments
are instantiated arbitrarily; the discriminant tag does not depend on
them. -/

def builderAddMethods : List (ChainhookBuilder → ChainhookBuilder) :=
  [ fun b => b.AddFTTransfer "" none none none,
    fun b => b.AddFTMint "" none none,
    fun b => b.AddFTBurn "" none none,
    fun b => b.AddNFTTransfer "" none none,
    fun b => b.AddNFTMint "" none,
    fun b => b.AddNFTBurn "" none,
    fun b => b.AddSTXTransfer none none none,
    fun b => b.AddSTXMint none none,
    fun b => b.AddSTXBurn none none,
    fun b => b.AddContractDeploy none,
    fun b => b.AddContractCall none none none,
    fun b => b.AddContractLog none,
    fun b => b.AddBalanceChange none,
    fun b => b.AddCoinbase none,
    fun b => b.AddTenureChange ]

/-- The discriminant tag each addX method stamps on the filter it appends
(read off a fresh builder). -/
def builderAddMethodTags : List EventType :=
  builderAddMethods.filterMap
    (fun f => ((f (NewChainhookBuilder "" NetworkMainnet)).filters.head?).map
      EventFilter.typeTag)

/-! # Theorems -/

/-! ## Builder validation order (claim C1) -/

/-- C1: with a nil error slot, `Build()` returns the assembled definition
when name, action URL and filter list are all populated, and otherwise
fails with a `ValidationError` on the first violated field in the fixed
order name, action.url, filters. -/
theorem build_checks_fields_in_order (b : ChainhookBuilder) (h : b.err = none) :
    (b.definition.name = "" →
      b.Build = .error { field := "name", reason := "name is required" }) ∧
    (b.definition.name ≠ "" → b.definition.action.url = "" →
      b.Build = .error { field := "action.url", reason := "webhook URL is required" }) ∧
    (b.definition.name ≠ "" → b.definition.action.url ≠ "" → b.filters = [] →
      b.Build = .error { field := "filters", reason := "at least one filter is required" }) ∧
    (b.definition.name ≠ "" → b.definition.action.url ≠ "" → b.filters ≠ [] →
      b.Build = .ok { b.definition with filters := { events := b.filters } }) := by
  unfold ChainhookBuilder.Build
  rw [h]
  refine ⟨?_, ?_, ?_, ?_⟩
  · intro hn
    simp [hn]
  · intro hn hu
    simp [hn, hu]
  · intro hn hu hf
    simp [hn, hu, hf]
  · intro hn hu hf
    simp [hn, hu, List.length_eq_zero, hf]

/-- Witness for C1: a fresh builder with an empty name fails on "name". -/
theorem build_checks_fields_in_order_witness :
    (NewChainhookBuilder "" NetworkMainnet).err = none ∧
    (NewChainhookBuilder "" NetworkMainnet).Build =
      .error { field := "name", reason := "name is required" } :=
  ⟨rfl, (build_checks_fields_in_order _ rfl).1 rfl⟩

/-! ## Sticky builder error (claim C8) -/

/-- C8: once the error slot is set, every fluent call is a no-op returning
the builder unchanged, and `Build()` returns the stored error verbatim
without performing the three field checks. -/
theorem builder_error_is_sticky (b : ChainhookBuilder) (e : ValidationError)
    (op : BuilderOp) (h : b.err = some e) :
    applyOp op b = b ∧ b.Build = .error e := by
  have hs : b.err.isSome = true := by rw [h]; rfl
  constructor
  · cases op <;>
      simp [applyOp, ChainhookBuilder.WithName, ChainhookBuilder.WithNetwork,
        ChainhookBuilder.WithWebhookURL, ChainhookBuilder.AddFilter,
        ChainhookBuilder.AddFTTransfer, ChainhookBuilder.AddFTMint,
        ChainhookBuilder.AddFTBurn, ChainhookBuilder.AddNFTTransfer,
        ChainhookBuilder.AddNFTMint, ChainhookBuilder.AddNFTBurn,
        ChainhookBuilder.AddSTXTransfer, ChainhookBuilder.AddSTXMint,
        ChainhookBuilder.AddSTXBurn, ChainhookBuilder.AddContractDeploy,
        ChainhookBuilder.AddContractCall, ChainhookBuilder.AddContractLog,
        ChainhookBuilder.AddBalanceChange, ChainhookBuilder.AddCoinbase,
        ChainhookBuilder.AddTenureChange, ChainhookBuilder.WithOptions,
        ChainhookBuilder.WithEnableOnRegistration,
        ChainhookBuilder.WithExpireAfterEvaluations,
        ChainhookBuilder.WithExpireAfterOccurrences,
        ChainhookBuilder.WithDecodeClarityValues,
        ChainhookBuilder.WithIncludeContractABI,
        ChainhookBuilder.WithIncludeContractSourceCode,
        ChainhookBuilder.WithIncludePostConditions,
        ChainhookBuilder.WithIncludeRawTransactions,
        ChainhookBuilder.WithIncludeBlockSignatures,
        ChainhookBuilder.WithIncludeBlockMetadata, hs]
  · unfold ChainhookBuilder.Build
    rw [h]

/-- Witness for C8: a poisoned builder ignores `WithName` and `Build`
returns the stored error. -/
theorem builder_error_is_sticky_witness :
    ({ NewChainhookBuilder "n" NetworkMainnet with
        err := some { field := "f", reason := "r" } } : ChainhookBuilder).err =
      some { field := "f", reason := "r" } ∧
    (applyOp (.withName "other")
        { NewChainhookBuilder "n" NetworkMainnet with
          err := some { field := "f", reason := "r" } } =
      { NewChainhookBuilder "n" NetworkMainnet with
        err := some { field := "f", reason := "r" } } ∧
     ({ NewChainhookBuilder "n" NetworkMainnet with
        err := some { field := "f", reason := "r" } } : ChainhookBuilder).Build =
      .error { field := "f", reason := "r" }) :=
  ⟨rfl, builder_error_is_sticky _ _ (.withName "other") rfl⟩

/-! ## The error slot is never written (claim C10) -/

/-- No single fluent call changes the error slot. -/
theorem applyOp_err (op : BuilderOp) (b : ChainhookBuilder) :
    (applyOp op b).err = b.err := by
  cases op <;>
    simp only [applyOp, ChainhookBuilder.WithName, ChainhookBuilder.WithNetwork,
      ChainhookBuilder.WithWebhookURL, ChainhookBuilder.AddFilter,
      ChainhookBuilder.AddFTTransfer, ChainhookBuilder.AddFTMint,
      ChainhookBuilder.AddFTBurn, ChainhookBuilder.AddNFTTransfer,
      ChainhookBuilder.AddNFTMint, ChainhookBuilder.AddNFTBurn,
      ChainhookBuilder.AddSTXTransfer, ChainhookBuilder.AddSTXMint,
      ChainhookBuilder.AddSTXBurn, ChainhookBuilder.AddContractDeploy,
      ChainhookBuilder.AddContractCall, ChainhookBuilder.AddContractLog,
      ChainhookBuilder.AddBalanceChange, ChainhookBuilder.AddCoinbase,
      ChainhookBuilder.AddTenureChange, ChainhookBuilder.WithOptions,
      ChainhookBuilder.WithEnableOnRegistration,
      ChainhookBuilder.WithExpireAfterEvaluations,
      ChainhookBuilder.WithExpireAfterOccurrences,
      ChainhookBuilder.WithDecodeClarityValues,
      ChainhookBuilder.WithIncludeContractABI,
      ChainhookBuilder.WithIncludeContractSourceCode,
      ChainhookBuilder.WithIncludePostConditions,
      ChainhookBuilder.WithIncludeRawTransactions,
      ChainhookBuilder.WithIncludeBlockSignatures,
      ChainhookBuilder.WithIncludeBlockMetadata] <;>
    split <;> rfl

/-- No sequence of fluent calls changes the error slot. -/
theorem applyOps_err (ops : List BuilderOp) (b : ChainhookBuilder) :
    (applyOps ops b).err = b.err := by
  induction ops generalizing b with
  | nil => rfl
  | cons op rest ih =>
    show (applyOps rest (applyOp op b)).err = b.err
    rw [ih, applyOp_err]

/-- C10: starting from `NewChainhookBuilder`, no sequence of fluent calls
ever assigns the error slot, so `Build()`'s outcome is decided solely by
the three field checks. -/
theorem fluent_calls_never_set_error (ops : List BuilderOp)
    (name : String) (network : Network) :
    (applyOps ops (NewChainhookBuilder name network)).err = none := by
  rw [applyOps_err]
  rfl

/-! ## 204 No Content (claim C4) -/

/-- C4: a 204 response returns success with no decode attempt; a supplied
destination is returned exactly unchanged. -/
theorem response_204_skips_decode {α : Type} (method url : String)
    (headers : List (String × String)) (respBody : HttpBody)
    (result : Option α) (decode : String → Option α) :
    handleResponse 204 method url headers respBody result decode = .ok result := by
  simp [handleResponse]

/-! ## Pagination query string (claim C5) -/

/-- Counterexample to C5: `url.Values.Encode` emits parameters sorted by
key, so the query string of `NewPaginationOptions(0, 10)` is NOT
"offset=0&limit=10". -/
theorem pagination_query_order_counterexample :
    (GetChainhooks (some (NewPaginationOptions 0 10))).path ≠
      "/chainhooks/me?offset=0&limit=10" := by
  decide

/-- C5 (amended): `NewPaginationOptions(0, 10)` serializes into the query
string "limit=10&offset=0" — the same two parameters, but emitted in
sorted key order by `url.Values.Encode`. -/
theorem pagination_query_sorted :
    (GetChainhooks (some (NewPaginationOptions 0 10))).path =
      "/chainhooks/me?limit=10&offset=0" := by
  rfl

/-! ## Client-side pre-checks before any network access (claim C3) -/

/-- C3: every public operation's emptiness pre-check runs client-side:
an empty uuid, a nil definition, a nil bulk request, or a bulk request
with no selector yields a `ValidationError` naming the offending field
and produces no request at all (the error branch of these functions is
the point before `Client.request` is ever reached); in particular
`GetChainhook("")` fails validation on field "uuid". -/
theorem prechecks_fail_before_network (uuid : UUID)
    (defn : Option ChainhookDefinition) (enabled : Bool) (height : Nat)
    (r : BulkEnableChainhooksRequest) :
    (uuid = "" →
      GetChainhook uuid = .error { field := "uuid", reason := "uuid cannot be empty" } ∧
      UpdateChainhook uuid defn = .error { field := "uuid", reason := "uuid cannot be empty" } ∧
      EnableChainhook uuid enabled = .error { field := "uuid", reason := "uuid cannot be empty" } ∧
      DeleteChainhook uuid = .error { field := "uuid", reason := "uuid cannot be empty" } ∧
      EvaluateChainhook uuid height = .error { field := "uuid", reason := "uuid cannot be empty" }) ∧
    RegisterChainhook none = .error { field := "definition", reason := "definition cannot be nil" } ∧
    UpdateChainhook "u" none = .error { field := "definition", reason := "definition cannot be nil" } ∧
    BulkEnableChainhooks none = .error { field := "request", reason := "request cannot be nil" } ∧
    (r.uuids = [] → r.webhookURL = none → r.statuses = [] →
      BulkEnableChainhooks (some r) =
        .error { field := "request",
                 reason := "at least one filter (uuids, webhook_url, or statuses) must be provided" }) ∧
    GetChainhook "" = .error { field := "uuid", reason := "uuid cannot be empty" } := by
  refine ⟨?_, rfl, rfl, rfl, ?_, rfl⟩
  · intro h
    refine ⟨?_, ?_, ?_, ?_, ?_⟩ <;>
      simp [GetChainhook, UpdateChainhook, EnableChainhook, DeleteChainhook,
        EvaluateChainhook, h]
  · intro h1 h2 h3
    simp [BulkEnableChainhooks, h1, h2, h3]

/-- Witness for C3: `GetChainhook(ctx, "")` fails on field "uuid". -/
theorem prechecks_fail_before_network_witness :
    ("" : UUID) = "" ∧
    GetChainhook "" = .error { field := "uuid", reason := "uuid cannot be empty" } :=
  ⟨rfl, ((prechecks_fail_before_network "" none true 0
      { enabled := true, uuids := [], webhookURL := none, statuses := [] }).1 rfl).1⟩

/-! ## Base URL trailing-slash stripping (claim C9) -/

/-- Counterexample to C9: `strings.TrimSuffix` removes at most ONE
trailing slash, so a configured base URL ending in "//" is stored STILL
ending with "/". -/
theorem base_url_trailing_slash_counterexample :
    (NewClientWithConfig { baseURL := "https://api.mainnet.hiro.so//" }).baseURL =
      "https://api.mainnet.hiro.so/" ∧
    hasSuffixSlash
      (NewClientWithConfig { baseURL := "https://api.mainnet.hiro.so//" }).baseURL = true := by
  constructor
  · rfl
  · rfl

/-- C9 (amended): client construction strips exactly one trailing slash
from the configured base URL, so whenever the effective base URL does not
end in "//" the stored base URL does not end with "/"; and every request
URL is the stored base URL with the path appended. -/
theorem hasSuffixSlash_eq (s : String) :
    hasSuffixSlash s =
      (match s.data.reverse.head? with
       | some c => c == '/'
       | none => false) := by
  unfold hasSuffixSlash
  rw [List.head?_reverse]

theorem base_url_one_slash_stripped (cfg : ClientConfig) (path : String) :
    requestFullURL (NewClientWithConfig cfg) path =
      (NewClientWithConfig cfg).baseURL ++ path ∧
    (hasSuffixDoubleSlash (effectiveBaseURL cfg) = false →
      hasSuffixSlash (NewClientWithConfig cfg).baseURL = false) := by
  refine ⟨rfl, ?_⟩
  intro hdd
  show hasSuffixSlash (goTrimSuffixSlash (effectiveBaseURL cfg)) = false
  set s := effectiveBaseURL cfg with hs
  unfold goTrimSuffixSlash
  by_cases h : hasSuffixSlash s = true
  · rw [if_pos h]
    rw [hasSuffixSlash_eq] at h
    rw [hasSuffixSlash_eq]
    cases hr : s.data.reverse with
    | nil =>
      rw [hr] at h
      exact Bool.noConfusion h
    | cons c r' =>
      rw [hr] at h
      have hc : c = '/' := eq_of_beq h
      have hdata : s.data = r'.reverse ++ [c] := by
        conv_lhs => rw [← List.reverse_reverse s.data]
        rw [hr, List.reverse_cons]
      have hdrop : s.data.dropLast = r'.reverse := by
        rw [hdata, List.dropLast_concat]
      show (match (s.data.dropLast).reverse.head? with
            | some c => c == '/'
            | none => false) = false
      rw [hdrop, List.reverse_reverse]
      unfold hasSuffixDoubleSlash at hdd
      rw [hr] at hdd
      cases r' with
      | nil => rfl
      | cons c2 rest =>
        show (c2 == '/') = false
        have hb : (c == '/' && c2 == '/') = false := hdd
        rw [hc] at hb
        simpa using hb
  · rw [if_neg h]
    cases hb2 : hasSuffixSlash s with
    | true => exact absurd hb2 h
    | false => rfl

/-- Witness for C9: a base URL with a single trailing slash is stored
without it, and a request URL is base plus path. -/
theorem base_url_one_slash_stripped_witness :
    requestFullURL (NewClientWithConfig { baseURL := "https://api.mainnet.hiro.so/" })
        "/chainhooks/me" =
      (NewClientWithConfig { baseURL := "https://api.mainnet.hiro.so/" }).baseURL ++
        "/chainhooks/me" ∧
    hasSuffixDoubleSlash
        (effectiveBaseURL { baseURL := "https://api.mainnet.hiro.so/" }) = false ∧
    hasSuffixSlash
        (NewClientWithConfig { baseURL := "https://api.mainnet.hiro.so/" }).baseURL = false :=
  ⟨(base_url_one_slash_stripped { baseURL := "https://api.mainnet.hiro.so/" } "/chainhooks/me").1,
   by rfl,
   (base_url_one_slash_stripped { baseURL := "https://api.mainnet.hiro.so/" } "/chainhooks/me").2
     (by rfl)⟩

/-! ## Structured HTTP error construction (claim C2) -/

/-- A non-empty string has positive length. -/
theorem string_length_pos_of_ne (s : String) (h : s ≠ "") : 0 < s.length := by
  cases s with
  | mk data =>
    cases data with
    | nil => exact absurd rfl h
    | cons c cs =>
      show 0 < (c :: cs).length
      simp

/-- The 404 response body of the claim's concrete instance:
raw text and its JSON-object decode. -/
def notFoundBody : HttpBody :=
  { raw := "\x7b\"message\":\"not found\"\x7d",
    parsed := some [("message", Json.str "not found")] }

/-- C2: every response with status >= 400 is turned into a structured
`HttpError` capturing status code, method, URL, response headers and raw
body, whose message is chosen exactly as the spec describes ("message"
string field, else "error" string field, else the raw body verbatim);
and the concrete 404 instance whose JSON body maps "message" to
"not found" classifies as `IsNotFound`, `IsHttpError`, with message
"not found".
The hypothesis `hcons` records that `json.Unmarshal` cannot decode an
empty body into an object. -/
theorem http_error_construction {α : Type} (status : Nat) (method url : String)
    (headers : List (String × String)) (respBody : HttpBody)
    (result : Option α) (decode : String → Option α)
    (h400 : 400 ≤ status)
    (hcons : respBody.raw = "" → respBody.parsed = none) :
    handleResponse status method url headers respBody result decode =
      .error (.http (newHttpError status method url headers respBody)) ∧
    (newHttpError status method url headers respBody).statusCode = status ∧
    (newHttpError status method url headers respBody).method = method ∧
    (newHttpError status method url headers respBody).url = url ∧
    (newHttpError status method url headers respBody).headers = headers ∧
    (newHttpError status method url headers respBody).rawBody = respBody.raw ∧
    (newHttpError status method url headers respBody).body = specChosenMessage respBody ∧
    (IsNotFound (.http (newHttpError 404 "GET" "u" [] notFoundBody)) = true ∧
     IsHttpError (.http (newHttpError 404 "GET" "u" [] notFoundBody)) = true ∧
     (newHttpError 404 "GET" "u" [] notFoundBody).body = "not found") := by
  refine ⟨?_, rfl, rfl, rfl, rfl, rfl, ?_, rfl, rfl, rfl⟩
  · unfold handleResponse
    rw [if_pos h400]
  · unfold newHttpError specChosenMessage
    by_cases hraw : respBody.raw = ""
    · rw [hcons hraw]
      simp [hraw]
    · rw [if_pos (string_length_pos_of_ne _ hraw)]

/-- Witness for C2 at the claim's concrete 404 instance. -/
theorem http_error_construction_witness :
    (400 ≤ 404 ∧ (notFoundBody.raw = "" → notFoundBody.parsed = none)) ∧
    (handleResponse 404 "GET" "u" [] notFoundBody (some (0 : Nat)) (fun _ => none) =
        .error (.http (newHttpError 404 "GET" "u" [] notFoundBody)) ∧
      (newHttpError 404 "GET" "u" [] notFoundBody).statusCode = 404 ∧
      (newHttpError 404 "GET" "u" [] notFoundBody).method = "GET" ∧
      (newHttpError 404 "GET" "u" [] notFoundBody).url = "u" ∧
      (newHttpError 404 "GET" "u" [] notFoundBody).headers = [] ∧
      (newHttpError 404 "GET" "u" [] notFoundBody).rawBody = notFoundBody.raw ∧
      (newHttpError 404 "GET" "u" [] notFoundBody).body = specChosenMessage notFoundBody ∧
      (IsNotFound (.http (newHttpError 404 "GET" "u" [] notFoundBody)) = true ∧
       IsHttpError (.http (newHttpError 404 "GET" "u" [] notFoundBody)) = true ∧
       (newHttpError 404 "GET" "u" [] notFoundBody).body = "not found")) :=
  ⟨⟨by decide, fun h => absurd h (by decide)⟩,
   http_error_construction 404 "GET" "u" [] notFoundBody (some (0 : Nat)) (fun _ => none)
     (by decide) (fun h => absurd h (by decide))⟩

/-! ## The addX convenience surface (claim C6) -/

/-- Counterexample to C6: the builder has 15 addX methods, not 16; in
particular no addX method produces the `ft_event`, `nft_event` or
`stx_event` variants, even though those filter types exist. -/
theorem addx_method_count_counterexample :
    builderAddMethods.length = 15 ∧
    builderAddMethodTags =
      [EventTypeFTTransfer, EventTypeFTMint, EventTypeFTBurn,
       EventTypeNFTTransfer, EventTypeNFTMint, EventTypeNFTBurn,
       EventTypeSTXTransfer, EventTypeSTXMint, EventTypeSTXBurn,
       EventTypeContractDeploy, EventTypeContractCall, EventTypeContractLog,
       EventTypeBalanceChange, EventTypeCoinbase, EventTypeTenureChange] ∧
    builderAddMethods.length ≠ 16 ∧
    builderAddMethodTags.contains EventTypeFTEvent = false ∧
    builderAddMethodTags.contains EventTypeNFTEvent = false ∧
    builderAddMethodTags.contains EventTypeSTXEvent = false :=
  ⟨rfl, by decide, by decide, by decide, by decide, by decide⟩

/-- C6 (amended): the builder provides one addX convenience method for 15
of the filter variants (the generic FT/NFT/STX event variants have none);
each is a thin wrapper over the generic `AddFilter`, and each appends a
filter whose discriminant `Type` tag equals the event-type constant of
that constructor's variant. -/
theorem addx_methods_stamp_variant_tag (b : ChainhookBuilder) (h : b.err = none)
    (asset : String) (p q : Option Principal) (am cid mth : Option String) :
    (b.AddFTTransfer asset p q am =
        b.AddFilter (.ftTransfer { type := EventTypeFTTransfer, asset := asset,
                                   sender := p, recipient := q, amount := am }) ∧
      ((b.AddFTTransfer asset p q am).filters.getLast?).map EventFilter.typeTag =
        some EventTypeFTTransfer) ∧
    (b.AddFTMint asset p am =
        b.AddFilter (.ftMint { type := EventTypeFTMint, asset := asset,
                               recipient := p, amount := am }) ∧
      ((b.AddFTMint asset p am).filters.getLast?).map EventFilter.typeTag =
        some EventTypeFTMint) ∧
    (b.AddFTBurn asset p am =
        b.AddFilter (.ftBurn { type := EventTypeFTBurn, asset := asset,
                               sender := p, amount := am }) ∧
      ((b.AddFTBurn asset p am).filters.getLast?).map EventFilter.typeTag =
        some EventTypeFTBurn) ∧
    (b.AddNFTTransfer asset p q =
        b.AddFilter (.nftTransfer { type := EventTypeNFTTransfer, asset := asset,
                                    sender := p, recipient := q }) ∧
      ((b.AddNFTTransfer asset p q).filters.getLast?).map EventFilter.typeTag =
        some EventTypeNFTTransfer) ∧
    (b.AddNFTMint asset p =
        b.AddFilter (.nftMint { type := EventTypeNFTMint, asset := asset, recipient := p }) ∧
      ((b.AddNFTMint asset p).filters.getLast?).map EventFilter.typeTag =
        some EventTypeNFTMint) ∧
    (b.AddNFTBurn asset p =
        b.AddFilter (.nftBurn { type := EventTypeNFTBurn, asset := asset, sender := p }) ∧
      ((b.AddNFTBurn asset p).filters.getLast?).map EventFilter.typeTag =
        some EventTypeNFTBurn) ∧
    (b.AddSTXTransfer p q am =
        b.AddFilter (.stxTransfer { type := EventTypeSTXTransfer, sender := p,
                                    recipient := q, amount := am }) ∧
      ((b.AddSTXTransfer p q am).filters.getLast?).map EventFilter.typeTag =
        some EventTypeSTXTransfer) ∧
    (b.AddSTXMint p am =
        b.AddFilter (.stxMint { type := EventTypeSTXMint, recipient := p, amount := am }) ∧
      ((b.AddSTXMint p am).filters.getLast?).map EventFilter.typeTag =
        some EventTypeSTXMint) ∧
    (b.AddSTXBurn p am =
        b.AddFilter (.stxBurn { type := EventTypeSTXBurn, sender := p, amount := am }) ∧
      ((b.AddSTXBurn p am).filters.getLast?).map EventFilter.typeTag =
        some EventTypeSTXBurn) ∧
    (b.AddContractDeploy p =
        b.AddFilter (.contractDeploy { type := EventTypeContractDeploy,
                                       deployerPrincipal := p }) ∧
      ((b.AddContractDeploy p).filters.getLast?).map EventFilter.typeTag =
        some EventTypeContractDeploy) ∧
    (b.AddContractCall cid mth p =
        b.AddFilter (.contractCall { type := EventTypeContractCall,
                                     contractIdentifier := cid, method := mth, sender := p }) ∧
      ((b.AddContractCall cid mth p).filters.getLast?).map EventFilter.typeTag =
        some EventTypeContractCall) ∧
    (b.AddContractLog cid =
        b.AddFilter (.contractLog { type := EventTypeContractLog,
                                    contractIdentifier := cid }) ∧
      ((b.AddContractLog cid).filters.getLast?).map EventFilter.typeTag =
        some EventTypeContractLog) ∧
    (b.AddBalanceChange p =
        b.AddFilter (.balanceChange { type := EventTypeBalanceChange, principal := p }) ∧
      ((b.AddBalanceChange p).filters.getLast?).map EventFilter.typeTag =
        some EventTypeBalanceChange) ∧
    (b.AddCoinbase p =
        b.AddFilter (.coinbase { type := EventTypeCoinbase, recipient := p }) ∧
      ((b.AddCoinbase p).filters.getLast?).map EventFilter.typeTag =
        some EventTypeCoinbase) ∧
    (b.AddTenureChange =
        b.AddFilter (.tenureChange { type := EventTypeTenureChange }) ∧
      ((b.AddTenureChange).filters.getLast?).map EventFilter.typeTag =
        some EventTypeTenureChange) := by
  refine ⟨⟨rfl, ?_⟩, ⟨rfl, ?_⟩, ⟨rfl, ?_⟩, ⟨rfl, ?_⟩, ⟨rfl, ?_⟩, ⟨rfl, ?_⟩, ⟨rfl, ?_⟩,
    ⟨rfl, ?_⟩, ⟨rfl, ?_⟩, ⟨rfl, ?_⟩, ⟨rfl, ?_⟩, ⟨rfl, ?_⟩, ⟨rfl, ?_⟩, ⟨rfl, ?_⟩, ⟨rfl, ?_⟩⟩ <;>
    simp [ChainhookBuilder.AddFTTransfer, ChainhookBuilder.AddFTMint,
      ChainhookBuilder.AddFTBurn, ChainhookBuilder.AddNFTTransfer,
      ChainhookBuilder.AddNFTMint, ChainhookBuilder.AddNFTBurn,
      ChainhookBuilder.AddSTXTransfer, ChainhookBuilder.AddSTXMint,
      ChainhookBuilder.AddSTXBurn, ChainhookBuilder.AddContractDeploy,
      ChainhookBuilder.AddContractCall, ChainhookBuilder.AddContractLog,
      ChainhookBuilder.AddBalanceChange, ChainhookBuilder.AddCoinbase,
      ChainhookBuilder.AddTenureChange, ChainhookBuilder.AddFilter, h,
      EventFilter.typeTag]

/-- Witness for C6 on a fresh builder: AddFTTransfer appends an
ft_transfer-tagged filter. -/
theorem addx_methods_stamp_variant_tag_witness :
    (NewChainhookBuilder "n" NetworkMainnet).err = none ∧
    (((NewChainhookBuilder "n" NetworkMainnet).AddFTTransfer "usda" none none
        none).filters.getLast?).map EventFilter.typeTag = some EventTypeFTTransfer :=
  ⟨rfl,
   ((addx_methods_stamp_variant_tag (NewChainhookBuilder "n" NetworkMainnet) rfl
      "usda" none none none none none).1).2⟩

/-! ## Options bag serialize/deserialize round trip (claim C7) -/

theorem jlookup_optField_ne (k k' : String) (v : Option Json)
    (rest : List (String × Json)) (h : ¬ k = k') :
    jlookup k (optField k' v ++ rest) = jlookup k rest := by
  cases v with
  | none => rfl
  | some j => simp [optField, jlookup, h]

theorem jlookup_optField_ne_single (k k' : String) (v : Option Json)
    (h : ¬ k = k') : jlookup k (optField k' v) = none := by
  cases v with
  | none => rfl
  | some j => simp [optField, jlookup, h]

theorem jlookup_optField_self (k : String) (v : Option Json)
    (rest : List (String × Json)) (hrest : jlookup k rest = none) :
    jlookup k (optField k v ++ rest) = v := by
  cases v with
  | none => simpa [optField] using hrest
  | some j => simp [optField, jlookup]

theorem jlookup_optField_self_single (k : String) (v : Option Json) :
    jlookup k (optField k v) = v := by
  cases v with
  | none => rfl
  | some j => simp [optField, jlookup]

theorem ser_lookup_eor (o : ChainhookOptions) :
    jlookup "enable_on_registration" (serializeOptions o) =
      o.enableOnRegistration.map Json.bool := by
  unfold serializeOptions
  simp only [List.append_assoc]
  exact jlookup_optField_self _ _ _ (by
    rw [jlookup_optField_ne _ _ _ _ (by decide), jlookup_optField_ne _ _ _ _ (by decide),
        jlookup_optField_ne _ _ _ _ (by decide), jlookup_optField_ne _ _ _ _ (by decide),
        jlookup_optField_ne _ _ _ _ (by decide), jlookup_optField_ne _ _ _ _ (by decide),
        jlookup_optField_ne _ _ _ _ (by decide), jlookup_optField_ne _ _ _ _ (by decide),
        jlookup_optField_ne_single _ _ _ (by decide)])

theorem ser_lookup_eae (o : ChainhookOptions) :
    jlookup "expire_after_evaluations" (serializeOptions o) =
      o.expireAfterEvaluations.map Json.num := by
  unfold serializeOptions
  simp only [List.append_assoc]
  rw [jlookup_optField_ne _ _ _ _ (by decide)]
  exact jlookup_optField_self _ _ _ (by
    rw [jlookup_optField_ne _ _ _ _ (by decide), jlookup_optField_ne _ _ _ _ (by decide),
        jlookup_optField_ne _ _ _ _ (by decide), jlookup_optField_ne _ _ _ _ (by decide),
        jlookup_optField_ne _ _ _ _ (by decide), jlookup_optField_ne _ _ _ _ (by decide),
        jlookup_optField_ne _ _ _ _ (by decide),
        jlookup_optField_ne_single _ _ _ (by decide)])

theorem ser_lookup_eao (o : ChainhookOptions) :
    jlookup "expire_after_occurrences" (serializeOptions o) =
      o.expireAfterOccurrences.map Json.num := by
  unfold serializeOptions
  simp only [List.append_assoc]
  rw [jlookup_optField_ne _ _ _ _ (by decide), jlookup_optField_ne _ _ _ _ (by decide)]
  exact jlookup_optField_self _ _ _ (by
    rw [jlookup_optField_ne _ _ _ _ (by decide), jlookup_optField_ne _ _ _ _ (by decide),
        jlookup_optField_ne _ _ _ _ (by decide), jlookup_optField_ne _ _ _ _ (by decide),
        jlookup_optField_ne _ _ _ _ (by decide), jlookup_optField_ne _ _ _ _ (by decide),
        jlookup_optField_ne_single _ _ _ (by decide)])

theorem ser_lookup_dcv (o : ChainhookOptions) :
    jlookup "decode_clarity_values" (serializeOptions o) =
      o.decodeClarityValues.map Json.bool := by
  unfold serializeOptions
  simp only [List.append_assoc]
  rw [jlookup_optField_ne _ _ _ _ (by decide), jlookup_optField_ne _ _ _ _ (by decide),
      jlookup_optField_ne _ _ _ _ (by decide)]
  exact jlookup_optField_self _ _ _ (by
    rw [jlookup_optField_ne _ _ _ _ (by decide), jlookup_optField_ne _ _ _ _ (by decide),
        jlookup_optField_ne _ _ _ _ (by decide), jlookup_optField_ne _ _ _ _ (by decide),
        jlookup_optField_ne _ _ _ _ (by decide),
        jlookup_optField_ne_single _ _ _ (by decide)])

theorem ser_lookup_abi (o : ChainhookOptions) :
    jlookup "include_contract_abi" (serializeOptions o) =
      o.includeContractABI.map Json.bool := by
  unfold serializeOptions
  simp only [List.append_assoc]
  rw [jlookup_optField_ne _ _ _ _ (by decide), jlookup_optField_ne _ _ _ _ (by decide),
      jlookup_optField_ne _ _ _ _ (by decide), jlookup_optField_ne _ _ _ _ (by decide)]
  exact jlookup_optField_self _ _ _ (by
    rw [jlookup_optField_ne _ _ _ _ (by decide), jlookup_optField_ne _ _ _ _ (by decide),
        jlookup_optField_ne _ _ _ _ (by decide), jlookup_optField_ne _ _ _ _ (by decide),
        jlookup_optField_ne_single _ _ _ (by decide)])

theorem ser_lookup_src (o : ChainhookOptions) :
    jlookup "include_contract_source_code" (serializeOptions o) =
      o.includeContractSourceCode.map Json.bool := by
  unfold serializeOptions
  simp only [List.append_assoc]
  rw [jlookup_optField_ne _ _ _ _ (by decide), jlookup_optField_ne _ _ _ _ (by decide),
      jlookup_optField_ne _ _ _ _ (by decide), jlookup_optField_ne _ _ _ _ (by decide),
      jlookup_optField_ne _ _ _ _ (by decide)]
  exact jlookup_optField_self _ _ _ (by
    rw [jlookup_optField_ne _ _ _ _ (by decide), jlookup_optField_ne _ _ _ _ (by decide),
        jlookup_optField_ne _ _ _ _ (by decide),
        jlookup_optField_ne_single _ _ _ (by decide)])

theorem ser_lookup_pc (o : ChainhookOptions) :
    jlookup "include_post_conditions" (serializeOptions o) =
      o.includePostConditions.map Json.bool := by
  unfold serializeOptions
  simp only [List.append_assoc]
  rw [jlookup_optField_ne _ _ _ _ (by decide), jlookup_optField_ne _ _ _ _ (by decide),
      jlookup_optField_ne _ _ _ _ (by decide), jlookup_optField_ne _ _ _ _ (by decide),
      jlookup_optField_ne _ _ _ _ (by decide), jlookup_optField_ne _ _ _ _ (by decide)]
  exact jlookup_optField_self _ _ _ (by
    rw [jlookup_optField_ne _ _ _ _ (by decide), jlookup_optField_ne _ _ _ _ (by decide),
        jlookup_optField_ne_single _ _ _ (by decide)])

theorem ser_lookup_raw (o : ChainhookOptions) :
    jlookup "include_raw_transactions" (serializeOptions o) =
      o.includeRawTransactions.map Json.bool := by
  unfold serializeOptions
  simp only [List.append_assoc]
  rw [jlookup_optField_ne _ _ _ _ (by decide), jlookup_optField_ne _ _ _ _ (by decide),
      jlookup_optField_ne _ _ _ _ (by decide), jlookup_optField_ne _ _ _ _ (by decide),
      jlookup_optField_ne _ _ _ _ (by decide), jlookup_optField_ne _ _ _ _ (by decide),
      jlookup_optField_ne _ _ _ _ (by decide)]
  exact jlookup_optField_self _ _ _ (by
    rw [jlookup_optField_ne _ _ _ _ (by decide),
        jlookup_optField_ne_single _ _ _ (by decide)])

theorem ser_lookup_sig (o : ChainhookOptions) :
    jlookup "include_block_signatures" (serializeOptions o) =
      o.includeBlockSignatures.map Json.bool := by
  unfold serializeOptions
  simp only [List.append_assoc]
  rw [jlookup_optField_ne _ _ _ _ (by decide), jlookup_optField_ne _ _ _ _ (by decide),
      jlookup_optField_ne _ _ _ _ (by decide), jlookup_optField_ne _ _ _ _ (by decide),
      jlookup_optField_ne _ _ _ _ (by decide), jlookup_optField_ne _ _ _ _ (by decide),
      jlookup_optField_ne _ _ _ _ (by decide), jlookup_optField_ne _ _ _ _ (by decide)]
  exact jlookup_optField_self _ _ _ (jlookup_optField_ne_single _ _ _ (by decide))

theorem ser_lookup_meta (o : ChainhookOptions) :
    jlookup "include_block_metadata" (serializeOptions o) =
      o.includeBlockMetadata.map Json.bool := by
  unfold serializeOptions
  simp only [List.append_assoc]
  rw [jlookup_optField_ne _ _ _ _ (by decide), jlookup_optField_ne _ _ _ _ (by decide),
      jlookup_optField_ne _ _ _ _ (by decide), jlookup_optField_ne _ _ _ _ (by decide),
      jlookup_optField_ne _ _ _ _ (by decide), jlookup_optField_ne _ _ _ _ (by decide),
      jlookup_optField_ne _ _ _ _ (by decide), jlookup_optField_ne _ _ _ _ (by decide),
      jlookup_optField_ne _ _ _ _ (by decide)]
  exact jlookup_optField_self_single _ _

theorem getBool_of_map (l : List (String × Json)) (k : String) (v : Option Bool)
    (h : jlookup k l = v.map Json.bool) : getBoolField l k = v := by
  unfold getBoolField
  rw [h]
  cases v <;> rfl

theorem getNum_of_map (l : List (String × Json)) (k : String) (v : Option Nat)
    (h : jlookup k l = v.map Json.num) : getNumField l k = v := by
  unfold getNumField
  rw [h]
  cases v <;> rfl

/-- Serializing an options bag and decoding it back restores every field. -/
theorem options_roundtrip (o : ChainhookOptions) :
    deserializeOptions (serializeOptions o) = o := by
  unfold deserializeOptions
  rw [getBool_of_map _ _ _ (ser_lookup_eor o), getNum_of_map _ _ _ (ser_lookup_eae o),
      getNum_of_map _ _ _ (ser_lookup_eao o), getBool_of_map _ _ _ (ser_lookup_dcv o),
      getBool_of_map _ _ _ (ser_lookup_abi o), getBool_of_map _ _ _ (ser_lookup_src o),
      getBool_of_map _ _ _ (ser_lookup_pc o), getBool_of_map _ _ _ (ser_lookup_raw o),
      getBool_of_map _ _ _ (ser_lookup_sig o), getBool_of_map _ _ _ (ser_lookup_meta o)]

/-- Counterexample to C7: the options bag exposes TEN independently
settable flags, not nine — applying all ten setters yields a serialized
object with ten keys. -/
theorem options_ten_flags_counterexample :
    (serializeOptions
        ((((((((((NewChainhookOptionsBuilder.EnableOnRegistration
          true).ExpireAfterEvaluations 1).ExpireAfterOccurrences
          2).DecodeClarityValues true).IncludeContractABI
          true).IncludeContractSourceCode true).IncludePostConditions
          true).IncludeRawTransactions true).IncludeBlockSignatures
          true).IncludeBlockMetadata true).Build).map Prod.fst =
      ["enable_on_registration", "expire_after_evaluations",
       "expire_after_occurrences", "decode_clarity_values",
       "include_contract_abi", "include_contract_source_code",
       "include_post_conditions", "include_raw_transactions",
       "include_block_signatures", "include_block_metadata"] ∧
    (serializeOptions
        ((((((((((NewChainhookOptionsBuilder.EnableOnRegistration
          true).ExpireAfterEvaluations 1).ExpireAfterOccurrences
          2).DecodeClarityValues true).IncludeContractABI
          true).IncludeContractSourceCode true).IncludePostConditions
          true).IncludeRawTransactions true).IncludeBlockSignatures
          true).IncludeBlockMetadata true).Build).length = 10 := by
  constructor
  · rfl
  · rfl

/-- C7 (amended): `build()` never fails (it returns the bag itself,
unconditionally), and any subset of the TEN option flags that was set is
preserved exactly through a serialize/deserialize round trip, with unset
fields absent from the serialized object rather than collapsed to
false/zero. -/
theorem options_builder_build_roundtrip (b : ChainhookOptionsBuilder) :
    b.Build = b.opts ∧
    deserializeOptions (serializeOptions b.Build) = b.Build ∧
    (jlookup "enable_on_registration" (serializeOptions b.Build) = none ↔
      b.Build.enableOnRegistration = none) ∧
    (jlookup "expire_after_evaluations" (serializeOptions b.Build) = none ↔
      b.Build.expireAfterEvaluations = none) ∧
    (jlookup "expire_after_occurrences" (serializeOptions b.Build) = none ↔
      b.Build.expireAfterOccurrences = none) ∧
    (jlookup "decode_clarity_values" (serializeOptions b.Build) = none ↔
      b.Build.decodeClarityValues = none) ∧
    (jlookup "include_contract_abi" (serializeOptions b.Build) = none ↔
      b.Build.includeContractABI = none) ∧
    (jlookup "include_contract_source_code" (serializeOptions b.Build) = none ↔
      b.Build.includeContractSourceCode = none) ∧
    (jlookup "include_post_conditions" (serializeOptions b.Build) = none ↔
      b.Build.includePostConditions = none) ∧
    (jlookup "include_raw_transactions" (serializeOptions b.Build) = none ↔
      b.Build.includeRawTransactions = none) ∧
    (jlookup "include_block_signatures" (serializeOptions b.Build) = none ↔
      b.Build.includeBlockSignatures = none) ∧
    (jlookup "include_block_metadata" (serializeOptions b.Build) = none ↔
      b.Build.includeBlockMetadata = none) := by
  refine ⟨rfl, options_roundtrip _, ?_, ?_, ?_, ?_, ?_, ?_, ?_, ?_, ?_, ?_⟩
  · rw [ser_lookup_eor]
    exact Option.map_eq_none'
  · rw [ser_lookup_eae]
    exact Option.map_eq_none'
  · rw [ser_lookup_eao]
    exact Option.map_eq_none'
  · rw [ser_lookup_dcv]
    exact Option.map_eq_none'
  · rw [ser_lookup_abi]
    exact Option.map_eq_none'
  · rw [ser_lookup_src]
    exact Option.map_eq_none'
  · rw [ser_lookup_pc]
    exact Option.map_eq_none'
  · rw [ser_lookup_raw]
    exact Option.map_eq_none'
  · rw [ser_lookup_sig]
    exact Option.map_eq_none'
  · rw [ser_lookup_meta]
    exact Option.map_eq_none'
